/-
Verification of the peppegpt ingestion-orchestration core against its
specification.

The repository ships the backend design documents
(`backend_rag_pipeline/GRAPH_SELECTION.md`, `PRPs/knowledge-graph-rag.md`)
but not the backend implementation files themselves (`graph_selector.py`,
`graph_builder.py`, the agent tools).  Those components are therefore
modelled here from the specification wording, as marked on each
definition.  The frontend helpers (`truncateUrl` in
`frontend/src/pages/WebSources.tsx`, `createResourceMarkers` /
`prependResourceMarkers`) are translated directly from the TypeScript
source.
-/
import Mathlib

namespace PeppeGPT

/-! ### String helpers

Executable substring matching over `List Char`, used for the title
allow/deny-list heuristic ("substring match" in the spec). -/

/-- The check `isPrefixB p s` decides whether `p` is a prefix of `s`. -/
def isPrefixB : List Char → List Char → Bool
  | [], _ => true
  | _ :: _, [] => false
  | a :: as, b :: bs => a == b && isPrefixB as bs

/-- The check `containsB p s` decides whether `p` occurs as a contiguous substring
of `s`. -/
def containsB (p : List Char) : List Char → Bool
  | [] => isPrefixB p []
  | s@(_ :: rest) => isPrefixB p s || containsB p rest

/-- A title matches a term list when some term occurs as a substring of
the title. -/
def titleMatches (terms : List String) (title : String) : Bool :=
  terms.any fun t => containsB t.toList title.toList

/-! ### Document Classifier (spec §4.1) -/

/-- Modelled from the spec: the global graph mode
(`GRAPH_MODE = auto | always | never`, GRAPH_SELECTION.md).  The
implementation file `graph_selector.py` is not in the repository. -/
inductive GraphMode
  | auto
  | always
  | never
deriving DecidableEq

/-- Modelled from the spec: classifier configuration surface (spec §6):
mode, minimum chunk count (default 3), entity threshold (default 5),
relationship-density threshold (default 0.15), deny/allow term lists.
The exact entity / relational-phrase detection patterns are "tunable
configuration, not a specified algorithm" (spec §9), so they appear here
as the configurable detector functions `countEntities` and
`isRelational`. -/
structure ClassifierConfig where
  mode : GraphMode
  minChunks : Nat
  entityThreshold : Nat
  relationshipThreshold : ℚ
  denyList : List String
  allowList : List String
  countEntities : String → Nat
  isRelational : String → Bool

/-- Modelled from the spec: `ClassificationResult` (spec §3): the
`useGraph` decision, a loggable `reason`, and the numeric signals that
produced it. -/
structure ClassificationResult where
  useGraph : Bool
  reason : String
  entityCount : Nat
  relationshipDensity : ℚ
  chunkCount : Nat

/-- Modelled from the spec: relationship density — the fraction of
chunks containing at least one relational phrase (spec §4.1). -/
def relationshipDensity (isRel : String → Bool) (chunks : List String) : ℚ :=
  if chunks.length = 0 then 0
  else (chunks.countP isRel : ℚ) / (chunks.length : ℚ)

/-- Modelled from the spec: `should_use_graph_for_document` /
`classify(text, chunks, title, mediaType, config)` (spec §4.1,
GRAPH_SELECTION.md), whose implementation `graph_selector.py` is not in
the repository.  Mode override is checked first and bypasses scoring;
in `auto` mode the chunk-count gate, then the deny-list, then the
allow-list short-circuit, and finally the conjunctive density rule
decide.  Every branch produces a distinct reason string. -/
def classify (text : String) (chunks : List String) (title : String)
    (mediaType : String) (cfg : ClassifierConfig) : ClassificationResult :=
  let _ := mediaType
  let entities := cfg.countEntities text
  let relDensity := relationshipDensity cfg.isRelational chunks
  let mkRes := fun (u : Bool) (r : String) =>
    ClassificationResult.mk u r entities relDensity chunks.length
  match cfg.mode with
  | GraphMode.always => mkRes true "mode always: graph forced for all documents"
  | GraphMode.never => mkRes false "mode never: graph disabled for all documents"
  | GraphMode.auto =>
    if chunks.length < cfg.minChunks then
      mkRes false "too small: fewer chunks than the minimum"
    else if titleMatches cfg.denyList title then
      mkRes false "deny-list: title suggests simple content"
    else if titleMatches cfg.allowList title then
      mkRes true "allow-list: title suggests relational content"
    else if cfg.entityThreshold ≤ entities ∧
        cfg.relationshipThreshold ≤ relDensity then
      mkRes true "high entity and relationship density"
    else
      mkRes false "low complexity: densities below thresholds"

/-- Default classifier configuration (spec §6, GRAPH_SELECTION.md): auto
mode, min chunks 3, entity threshold 5, relationship threshold 0.15,
parameterised by the tunable term lists and detectors. -/
def defaultConfig (denyList allowList : List String)
    (countEntities : String → Nat) (isRelational : String → Bool) :
    ClassifierConfig :=
  ClassifierConfig.mk GraphMode.auto 3 5 (15 / 100) denyList allowList
    countEntities isRelational

/-! ### Episode Batcher (spec §4.2) -/

/-- Modelled from the spec: a Chunk — 0-based index plus text content
(spec §3); the per-chunk metadata map plays no role in batching. -/
structure Chunk where
  index : Nat
  content : String

/-- Modelled from the spec: an Episode — name derived from origin and
chunk index, bounded-length body, and the document title as source
description (spec §3, §4.2). -/
structure Episode where
  name : String
  body : String
  sourceDescription : String

/-- Deterministic prefix truncation of a body to at most `maxChars`
characters (spec §4.2: "deterministic prefix truncation, not random
sampling"; PRP pseudocode `chunk.content[:2000]`). -/
def truncateBody (s : String) (maxChars : Nat) : String :=
  if s.length ≤ maxChars then s else String.mk (s.toList.take maxChars)

/-- The default episode-body ceiling (spec §6: 6000 characters, the
Graphiti per-episode token limit from the PRP). -/
def defaultMaxBodyChars : Nat := 6000

/-- Modelled from the spec: `buildEpisodes(chunks, title, origin,
maxBodyChars)` (spec §4.2) — one episode per chunk, in chunk order,
named `origin_chunkIndex`, body prefix-truncated to `maxBodyChars`,
title attached as source description.  The implementation
`graph_builder.py` is not in the repository.  Batching into groups of
`maxBatchSize` is submission pacing only and "carries no semantic
meaning" (spec §4.2), so it does not appear in the episode list. -/
def buildEpisodes (chunks : List Chunk) (title : String) (origin : String)
    (maxBodyChars : Nat) : List Episode :=
  chunks.map fun c =>
    Episode.mk (origin ++ "_" ++ toString c.index)
      (truncateBody c.content maxBodyChars) title

/-! ### Availability Gate (spec §4.5) -/

/-- Modelled from the spec: the error taxonomy (spec §4.3, glossary):
connection-class (backend unreachable), content-class (single-item
processing failure), rate-limit. -/
inductive ErrorKind
  | connection
  | content
  | rateLimit
deriving DecidableEq

/-- Modelled from the spec: `GraphAvailability` — availability flag and
consecutive-failure counter (spec §3, §4.5).  The last-changed
timestamp and cooldown re-probe window are real-time behaviour outside
this embedding. -/
structure GraphAvailability where
  available : Bool
  consecutiveFailures : Nat
deriving DecidableEq

/-- Modelled from the spec: `isAvailable()` (spec §4.5). -/
def GraphAvailability.isAvailable (g : GraphAvailability) : Bool :=
  g.available

/-- Modelled from the spec: `reportSuccess()` — a successful operation
immediately flips the gate back to available and resets the failure
counter (spec §4.5). -/
def reportSuccess (_g : GraphAvailability) : GraphAvailability :=
  GraphAvailability.mk true 0

/-- Modelled from the spec: `reportFailure(kind)` — the gate flips to
unavailable after any connection-class failure; content-class failures
do not flip it (spec §4.5, §4.4). -/
def reportFailure (g : GraphAvailability) (kind : ErrorKind) :
    GraphAvailability :=
  if kind = ErrorKind.connection then
    GraphAvailability.mk false (g.consecutiveFailures + 1)
  else g

/-! ### Graph Ingestion Orchestrator (spec §4.3) -/

/-- Modelled from the spec: the outcome of one `addEpisode` call against
the graph engine (spec §6 contract `addEpisode -> success|error`,
refined by the error taxonomy of spec §4.3). -/
inductive EpisodeOutcome
  | success
  | contentError (message : String)
  | connectionError (message : String)
  | rateLimitError (message : String)

/-- Modelled from the spec: the graph engine client, determinised as an
oracle giving the outcome of submitting the episode at a given index on
a given attempt (attempt 0 is the original call, attempt 1 the single
rate-limit retry). -/
structure GraphClient where
  addEpisode : Nat → Nat → EpisodeOutcome

/-- One episode submission including the rate-limit policy: on a
rate-limit error, a single retry; a rate-limit error persisting after
the retry is treated as content-class (spec §4.3 taxonomy (3), §7
taxonomy (4)). -/
def submitEpisode (c : GraphClient) (i : Nat) : EpisodeOutcome :=
  match c.addEpisode i 0 with
  | EpisodeOutcome.rateLimitError _ =>
    match c.addEpisode i 1 with
    | EpisodeOutcome.rateLimitError m => EpisodeOutcome.contentError m
    | o => o
  | o => o

/-- An error entry of the ingestion summary: episode index, error kind,
message (spec §3, §6 observable output). -/
structure IngestError where
  index : Nat
  kind : ErrorKind
  message : String
deriving DecidableEq

/-- Modelled from the spec: the distinguished overall status of an
ingestion call — completed, "skipped — unavailable" when no graph
client is present, or aborted after a connection-class error
(spec §4.3, §7). -/
inductive IngestStatus
  | completed
  | skippedUnavailable
  | abortedUnavailable
deriving DecidableEq

/-- Modelled from the spec: `IngestionSummary` — counts of episodes
attempted and succeeded, the (index, error) pairs, and the
distinguished status (spec §3, §4.3). -/
structure IngestionSummary where
  episodesAttempted : Nat
  episodesSucceeded : Nat
  errors : List IngestError
  status : IngestStatus
deriving DecidableEq

/-- Intermediate state of the orchestrator loop. -/
structure RunState where
  attempted : Nat
  succeeded : Nat
  errors : List IngestError
  gate : GraphAvailability
  aborted : Bool

/-- Modelled from the spec: the orchestrator loop from episode index `i`
onwards.  Successes report availability; content-class (and
retried-out rate-limit) errors are recorded by index and processing
continues; a connection-class error records its error, marks the gate
unavailable and aborts the remaining episodes (spec §4.3).  Episodes
are processed sequentially in index order; batch grouping is pacing
only (spec §4.2, §5). -/
def ingestGo (c : GraphClient) : Nat → List Episode → GraphAvailability →
    RunState
  | _, [], g => RunState.mk 0 0 [] g false
  | i, _e :: rest, g =>
    match submitEpisode c i with
    | EpisodeOutcome.success =>
      let r := ingestGo c (i + 1) rest (reportSuccess g)
      RunState.mk (r.attempted + 1) (r.succeeded + 1) r.errors r.gate
        r.aborted
    | EpisodeOutcome.contentError m =>
      let r := ingestGo c (i + 1) rest g
      RunState.mk (r.attempted + 1) r.succeeded
        (IngestError.mk i ErrorKind.content m :: r.errors) r.gate r.aborted
    | EpisodeOutcome.rateLimitError m =>
      let r := ingestGo c (i + 1) rest g
      RunState.mk (r.attempted + 1) r.succeeded
        (IngestError.mk i ErrorKind.rateLimit m :: r.errors) r.gate
        r.aborted
    | EpisodeOutcome.connectionError m =>
      RunState.mk 1 0 [IngestError.mk i ErrorKind.connection m]
        (reportFailure g ErrorKind.connection) true

/-- Modelled from the spec: `ingest(episodes, graphClient) ->
IngestionSummary` (spec §4.3) — a total function (the contract "never
throws"), threading the Availability Gate explicitly.  Without a graph
client it returns immediately with an empty summary carrying the
distinguished skipped-unavailable status and leaves the gate
untouched. -/
def ingest (episodes : List Episode) (client : Option GraphClient)
    (g : GraphAvailability) : IngestionSummary × GraphAvailability :=
  match client with
  | none => (IngestionSummary.mk 0 0 [] IngestStatus.skippedUnavailable, g)
  | some c =>
    let r := ingestGo c 0 episodes g
    (IngestionSummary.mk r.attempted r.succeeded r.errors
        (if r.aborted then IngestStatus.abortedUnavailable
         else IngestStatus.completed),
      r.gate)

/-! ### Hybrid Query Merger (spec §4.4) -/

/-- Modelled from the spec: the query mode `semantic | lexical | hybrid`
(spec §4.4). -/
inductive QueryMode
  | semantic
  | lexical
  | hybrid
deriving DecidableEq

/-- Modelled from the spec: whether a merged result set used both
backends or degraded to vector-only (spec §4.4: results annotated as
vector-only when the graph engine is unavailable or failing). -/
inductive ResultOrigin
  | vectorOnly
  | hybrid
deriving DecidableEq

/-- Modelled from the spec: the merged query result — document excerpts
from the vector store, graph facts as distinct structured entries, the
vector-only/hybrid tag, and the explicit count of calls issued to the
graph engine (state passing for the effect this embedding makes
visible). -/
structure HybridResult where
  docs : List String
  facts : List String
  origin : ResultOrigin
  graphCalls : Nat
deriving DecidableEq

/-- Modelled from the spec: `query(text, mode, limit)` (spec §4.4),
whose implementation (the agent graph tools) is not in the repository.
It consults the Availability Gate: if unavailable it performs the
vector query only, issuing zero graph calls.  If available it issues
one graph call; a graph failure (`none`) degrades that call to
vector-only without flipping availability.  Merged facts are
deduplicated, each source keeping its own order (spec §4.4 merge
policy). -/
def hybridQuery (gate : GraphAvailability)
    (vecSearch : String → QueryMode → Nat → List String)
    (graphSearch : String → QueryMode → Nat → Option (List String))
    (text : String) (mode : QueryMode) (limit : Nat) : HybridResult :=
  if gate.isAvailable = false then
    HybridResult.mk (vecSearch text mode limit) [] ResultOrigin.vectorOnly 0
  else
    match graphSearch text mode limit with
    | none =>
      HybridResult.mk (vecSearch text mode limit) [] ResultOrigin.vectorOnly
        1
    | some facts =>
      HybridResult.mk (vecSearch text mode limit) facts.dedup
        ResultOrigin.hybrid 1

/-! ### Frontend helpers (from the TypeScript source) -/

/-- From `frontend/src/pages/WebSources.tsx`: `truncateUrl(url,
maxLength)` — the URL unchanged when its length is at most `maxLength`,
otherwise its first `maxLength` characters followed by `"..."`. -/
def truncateUrl (url : String) (maxLength : Nat) : String :=
  if url.length ≤ maxLength then url
  else String.mk (url.toList.take maxLength) ++ "..."

/-- The function `truncateUrl` at its default `maxLength = 50`. -/
def truncateUrlDefault (url : String) : String := truncateUrl url 50

/-- From `frontend/src/pages/WebSources.tsx` (UI-resource utilities): a
UI resource. -/
structure UIResource where
  uri : String
  mimeType : String
  text : String

/-- From the source: `createResourceMarkers(uiResources)` — each
resource serialised between `__UI_RESOURCE__` and
`__END_UI_RESOURCE__`, joined with the empty separator; a null or
undefined list (`uiResources ?? []`) behaves as the empty list.  The
external `JSON.stringify` appears as the `stringify` parameter. -/
def createResourceMarkers (stringify : UIResource → String)
    (uiResources : Option (List UIResource)) : String :=
  String.join ((uiResources.getD []).map fun r =>
    "__UI_RESOURCE__" ++ stringify r ++ "__END_UI_RESOURCE__")

/-- From the source: `prependResourceMarkers(content, uiResources)` —
the markers prepended before a blank line when the marker string is
non-empty (JavaScript string truthiness), otherwise the content
unchanged. -/
def prependResourceMarkers (stringify : UIResource → String)
    (content : String) (uiResources : Option (List UIResource)) : String :=
  let resourceMarkers := createResourceMarkers stringify uiResources
  if resourceMarkers.isEmpty then content
  else resourceMarkers ++ "\n\n" ++ content

/-! ### Concrete inputs used by counterexamples and witnesses -/

/-- A concrete three-chunk document. -/
def cexChunks : List String := ["chunk one", "chunk two", "chunk three"]

/-- A concrete classifier configuration in `auto` mode whose deny list
and allow list can both match a single title. -/
def cexCfg : ClassifierConfig :=
  defaultConfig ["receipt"] ["contract"] (fun _ => 0) (fun _ => false)

/-- Five concrete episodes built from five chunks. -/
def sampleEpisodes : List Episode :=
  buildEpisodes
    [Chunk.mk 0 "alpha", Chunk.mk 1 "bravo", Chunk.mk 2 "charlie",
      Chunk.mk 3 "delta", Chunk.mk 4 "echo"]
    "Test Doc" "test_source" defaultMaxBodyChars

/-- A gate that starts available with no recorded failures. -/
def gate0 : GraphAvailability := GraphAvailability.mk true 0

/-- A client that fails with a content-class error exactly at episode
index 2 and succeeds elsewhere. -/
def clientContentAt2 : GraphClient :=
  GraphClient.mk fun i _ =>
    if i = 2 then EpisodeOutcome.contentError "malformed chunk"
    else EpisodeOutcome.success

/-- A client that fails with a connection-class error at episode index 1
and succeeds elsewhere. -/
def clientConnectionAt1 : GraphClient :=
  GraphClient.mk fun i _ =>
    if i = 1 then EpisodeOutcome.connectionError "backend unreachable"
    else EpisodeOutcome.success

/-- A 60-character URL. -/
def sampleLongUrl : String :=
  "https://example.com/0123456789012345678901234567890123456789"

end PeppeGPT

namespace PeppeGPT

/-- C1 (amended): in `auto` mode, `classify` returns `useGraph = true`
if and only if the chunk-count gate passes, the title matches no
deny-list term, and either the title matches an allow-list term or both
the entity count and the relationship density reach their thresholds.
The deny-list conjunct is the amendment: the deny-list is an absolute
override evaluated before the allow-list, so the biconditional of the claim
without it fails.  In particular a document whose gate passes, whose
title matches no list, and whose relationship density is 0 is skipped
even with entity count ≥ 5 (conjunctive rule). -/
theorem classify_auto_use_graph_iff (text : String) (chunks : List String)
    (title mediaType : String) (cfg : ClassifierConfig)
    (hmode : cfg.mode = GraphMode.auto) :
    (classify text chunks title mediaType cfg).useGraph = true ↔
      (cfg.minChunks ≤ chunks.length ∧
        titleMatches cfg.denyList title = false ∧
        (titleMatches cfg.allowList title = true ∨
          (cfg.entityThreshold ≤ cfg.countEntities text ∧
            cfg.relationshipThreshold ≤
              relationshipDensity cfg.isRelational chunks))) := by
  simp only [classify, hmode]
  split_ifs with h1 h2 h3 h4
  · simp only [Bool.false_eq_true, false_iff]
    rintro ⟨hc, -, -⟩
    omega
  · simp only [Bool.false_eq_true, false_iff]
    rintro ⟨-, hd, -⟩
    rw [h2] at hd
    exact Bool.true_eq_false.mp hd
  · simp only [true_iff]
    refine ⟨by omega, by simpa using h2, Or.inl h3⟩
  · simp only [true_iff]
    refine ⟨by omega, by simpa using h2, Or.inr h4⟩
  · simp only [Bool.false_eq_true, false_iff]
    rintro ⟨-, -, hor⟩
    rcases hor with h | h
    · exact h3 h
    · exact h4 h

/-- C1 (counterexample): with a config in `auto` mode whose deny list is
`["receipt"]` and allow list is `["contract"]`, the title
`"receipt contract"` and a three-chunk document satisfy the right-hand
side of the claim (the gate passes and the allow-list matches) yet
`classify` returns skip, because the deny-list match overrides the
allow-list.  So the biconditional of the claim is false as stated. -/
theorem classify_claimed_iff_false_on_deny_match :
    (classify "some text" cexChunks "receipt contract" "application/pdf"
        cexCfg).useGraph = false ∧
      cexCfg.mode = GraphMode.auto ∧
      cexCfg.minChunks ≤ cexChunks.length ∧
      titleMatches cexCfg.allowList "receipt contract" = true := by
  refine ⟨by decide, rfl, by decide, by decide⟩

/-- C1 (witness): the amended characterisation applied to a concrete
input realising the scenario given in the spec — mode `auto`, default
thresholds, six detected entities, relationship density 0, title
matching neither list — from which `useGraph = false` follows. -/
theorem classify_auto_use_graph_iff_witness :
    (defaultConfig ["manual"] ["contract"] (fun _ => 6)
          (fun _ => false)).mode = GraphMode.auto ∧
      ((classify "Alice Bob Carol Dave Erin Frank" cexChunks "notes.pdf"
            "application/pdf"
            (defaultConfig ["manual"] ["contract"] (fun _ => 6)
              (fun _ => false))).useGraph = true ↔
        ((defaultConfig ["manual"] ["contract"] (fun _ => 6)
              (fun _ => false)).minChunks ≤ cexChunks.length ∧
          titleMatches ["manual"] "notes.pdf" = false ∧
          (titleMatches ["contract"] "notes.pdf" = true ∨
            ((defaultConfig ["manual"] ["contract"] (fun _ => 6)
                  (fun _ => false)).entityThreshold ≤ 6 ∧
              (defaultConfig ["manual"] ["contract"] (fun _ => 6)
                  (fun _ => false)).relationshipThreshold ≤
                relationshipDensity (fun _ => false) cexChunks)))) :=
  ⟨rfl,
    classify_auto_use_graph_iff "Alice Bob Carol Dave Erin Frank" cexChunks
      "notes.pdf" "application/pdf"
      (defaultConfig ["manual"] ["contract"] (fun _ => 6) (fun _ => false))
      rfl⟩

/-- C6: in `auto` mode, whenever the chunk list has fewer than
`minChunks` elements, `classify` returns skip with a reason mentioning
chunks — regardless of the text, the detectors, the thresholds, and the
title (so in particular regardless of allow-list matches). -/
theorem classify_too_small_skips (text : String) (chunks : List String)
    (title mediaType : String) (cfg : ClassifierConfig)
    (hmode : cfg.mode = GraphMode.auto)
    (hsize : chunks.length < cfg.minChunks) :
    (classify text chunks title mediaType cfg).useGraph = false ∧
      containsB "chunks".toList
        (classify text chunks title mediaType cfg).reason.toList = true := by
  simp only [classify, hmode, if_pos hsize]
  exact ⟨trivial, by decide⟩

/-- C6 (witness): a two-chunk document with an allow-list-matching title
and saturated detectors is still skipped with a size reason under the
default config (min chunks 3). -/
theorem classify_too_small_skips_witness :
    (defaultConfig [] ["contract"] (fun _ => 100)
          (fun _ => true)).mode = GraphMode.auto ∧
      (["c1", "c2"] : List String).length <
        (defaultConfig [] ["contract"] (fun _ => 100)
          (fun _ => true)).minChunks ∧
      ((classify "text" ["c1", "c2"] "the contract" "application/pdf"
            (defaultConfig [] ["contract"] (fun _ => 100)
              (fun _ => true))).useGraph = false ∧
        containsB "chunks".toList
          (classify "text" ["c1", "c2"] "the contract" "application/pdf"
              (defaultConfig [] ["contract"] (fun _ => 100)
                (fun _ => true))).reason.toList = true) :=
  ⟨rfl, by decide,
    classify_too_small_skips "text" ["c1", "c2"] "the contract"
      "application/pdf"
      (defaultConfig [] ["contract"] (fun _ => 100) (fun _ => true)) rfl
      (by decide)⟩

/-- C7: when the mode is `never`, `classify` returns skip for every
input — text, chunks, title, media type, lists, detectors and
thresholds are all irrelevant. -/
theorem classify_mode_never_skips (text : String) (chunks : List String)
    (title mediaType : String) (cfg : ClassifierConfig)
    (hmode : cfg.mode = GraphMode.never) :
    (classify text chunks title mediaType cfg).useGraph = false := by
  simp only [classify, hmode]

/-- C7 (witness): with mode `never`, an input whose title matches the
allow list and whose densities exceed every threshold is still
skipped. -/
theorem classify_mode_never_skips_witness :
    (ClassifierConfig.mk GraphMode.never 3 5 (15 / 100) [] ["contract"]
          (fun _ => 100) (fun _ => true)).mode = GraphMode.never ∧
      (classify "text" cexChunks "the contract" "application/pdf"
          (ClassifierConfig.mk GraphMode.never 3 5 (15 / 100) []
            ["contract"] (fun _ => 100)
            (fun _ => true))).useGraph = false :=
  ⟨rfl,
    classify_mode_never_skips "text" cexChunks "the contract"
      "application/pdf"
      (ClassifierConfig.mk GraphMode.never 3 5 (15 / 100) [] ["contract"]
        (fun _ => 100) (fun _ => true)) rfl⟩

/-- C2: for every chunk sequence, `buildEpisodes` produces one episode
per chunk (nothing is dropped), every produced body has length at most
`maxBodyChars`, and every body is a prefix of the content of the
corresponding chunk (deterministic prefix truncation). -/
theorem buildEpisodes_body_bounded (chunks : List Chunk)
    (title origin : String) (maxBodyChars : Nat) :
    (buildEpisodes chunks title origin maxBodyChars).length =
        chunks.length ∧
      List.Forall₂ (fun (c : Chunk) (e : Episode) =>
          e.body.length ≤ maxBodyChars ∧
            e.body.toList <+: c.content.toList)
        chunks (buildEpisodes chunks title origin maxBodyChars) := by
  constructor
  · simp [buildEpisodes]
  · induction chunks with
    | nil => simp [buildEpisodes]
    | cons c cs ih =>
      refine List.Forall₂.cons ⟨?_, ?_⟩ ih
      · show (truncateBody c.content maxBodyChars).length ≤ maxBodyChars
        unfold truncateBody
        split_ifs with h
        · exact h
        · exact c.content.toList.length_take_le maxBodyChars
      · show (truncateBody c.content maxBodyChars).toList <+:
          c.content.toList
        unfold truncateBody
        split_ifs with h
        · exact ⟨[], by simp⟩
        · exact ⟨c.content.toList.drop maxBodyChars,
            c.content.toList.take_append_drop maxBodyChars⟩

/-- C3: for any five episodes, a client whose submission at index 2
fails with a content-class error while indices 0, 1, 3, 4 succeed, and
any starting gate state, `ingest` reports five attempts, four
successes, exactly the single error pair (2, content) and a completed
(not aborted) status — the failure is isolated and processing
continues past it. -/
theorem ingest_isolates_content_error (e0 e1 e2 e3 e4 : Episode)
    (m : String) (c : GraphClient) (g : GraphAvailability)
    (h0 : c.addEpisode 0 0 = EpisodeOutcome.success)
    (h1 : c.addEpisode 1 0 = EpisodeOutcome.success)
    (h2 : c.addEpisode 2 0 = EpisodeOutcome.contentError m)
    (h3 : c.addEpisode 3 0 = EpisodeOutcome.success)
    (h4 : c.addEpisode 4 0 = EpisodeOutcome.success) :
    (ingest [e0, e1, e2, e3, e4] (some c) g).1 =
      IngestionSummary.mk 5 4 [IngestError.mk 2 ErrorKind.content m]
        IngestStatus.completed := by
  simp [ingest, ingestGo, submitEpisode, h0, h1, h2, h3, h4]

/-- C3 (witness): the isolation theorem evaluated on the concrete
five-episode batch and the client failing only at index 2. -/
theorem ingest_isolates_content_error_witness :
    clientContentAt2.addEpisode 2 0 =
        EpisodeOutcome.contentError "malformed chunk" ∧
      (ingest sampleEpisodes (some clientContentAt2) gate0).1 =
        IngestionSummary.mk 5 4
          [IngestError.mk 2 ErrorKind.content "malformed chunk"]
          IngestStatus.completed := by
  refine ⟨rfl, ?_⟩
  show (ingest [_, _, _, _, _] (some clientContentAt2) gate0).1 = _
  exact ingest_isolates_content_error _ _ _ _ _ "malformed chunk"
    clientContentAt2 gate0 rfl rfl rfl rfl rfl

/-- C4: for any five episodes, a client whose submission at index 0
succeeds and whose submission at index 1 fails with a connection-class
error, and any starting gate state, `ingest` aborts the remaining
episodes: the partial summary reports two attempts (the one prior
success plus the failed attempt), one success, the single error pair
(1, connection) and the aborted status, and the Availability Gate is
unavailable afterwards.  The behaviour of the client at indices 2–4 is
unconstrained, so the result does not depend on it: the later episodes
are never submitted. -/
theorem ingest_aborts_on_connection_error (e0 e1 e2 e3 e4 : Episode)
    (m : String) (c : GraphClient) (g : GraphAvailability)
    (h0 : c.addEpisode 0 0 = EpisodeOutcome.success)
    (h1 : c.addEpisode 1 0 = EpisodeOutcome.connectionError m) :
    (ingest [e0, e1, e2, e3, e4] (some c) g).1 =
        IngestionSummary.mk 2 1
          [IngestError.mk 1 ErrorKind.connection m]
          IngestStatus.abortedUnavailable ∧
      ((ingest [e0, e1, e2, e3, e4] (some c) g).2).available = false := by
  constructor <;>
    simp [ingest, ingestGo, submitEpisode, h0, h1, reportSuccess,
      reportFailure]

/-- C4 (witness): the abort theorem evaluated on the concrete
five-episode batch and the client with a connection failure at
index 1. -/
theorem ingest_aborts_on_connection_error_witness :
    clientConnectionAt1.addEpisode 1 0 =
        EpisodeOutcome.connectionError "backend unreachable" ∧
      (ingest sampleEpisodes (some clientConnectionAt1) gate0).1 =
        IngestionSummary.mk 2 1
          [IngestError.mk 1 ErrorKind.connection "backend unreachable"]
          IngestStatus.abortedUnavailable ∧
      ((ingest sampleEpisodes (some clientConnectionAt1) gate0).2).available
        = false := by
  refine ⟨rfl, ?_, ?_⟩
  · show (ingest [_, _, _, _, _] (some clientConnectionAt1) gate0).1 = _
    exact (ingest_aborts_on_connection_error _ _ _ _ _ "backend unreachable"
      clientConnectionAt1 gate0 rfl rfl).1
  · show ((ingest [_, _, _, _, _] (some clientConnectionAt1)
        gate0).2).available = false
    exact (ingest_aborts_on_connection_error _ _ _ _ _ "backend unreachable"
      clientConnectionAt1 gate0 rfl rfl).2

/-- C5: for every episode sequence and gate state, `ingest` without a
graph client returns immediately: an empty summary (zero attempted,
zero succeeded, no errors) carrying the distinguished
skipped-unavailable status, and the gate untouched.  `ingest` is a
total function, so it never throws on any input. -/
theorem ingest_without_client_skips (episodes : List Episode)
    (g : GraphAvailability) :
    ingest episodes none g =
      (IngestionSummary.mk 0 0 [] IngestStatus.skippedUnavailable, g) :=
  rfl

/-- C8: whenever the Availability Gate reports unavailable,
`hybridQuery` issues zero calls to the graph engine and returns exactly
the vector results, no graph facts, tagged vector-only — for every
vector store, graph engine, query text, mode and limit. -/
theorem hybridQuery_unavailable_vector_only (gate : GraphAvailability)
    (vecSearch : String → QueryMode → Nat → List String)
    (graphSearch : String → QueryMode → Nat → Option (List String))
    (text : String) (mode : QueryMode) (limit : Nat)
    (h : gate.available = false) :
    hybridQuery gate vecSearch graphSearch text mode limit =
      HybridResult.mk (vecSearch text mode limit) []
        ResultOrigin.vectorOnly 0 := by
  simp [hybridQuery, GraphAvailability.isAvailable, h]

/-- C8 (witness): a query against an unavailable gate, with a graph
engine that would return facts if it were called, still yields the
vector-only result with a zero graph-call count. -/
theorem hybridQuery_unavailable_vector_only_witness :
    (GraphAvailability.mk false 1).available = false ∧
      hybridQuery (GraphAvailability.mk false 1)
          (fun _ _ _ => ["doc excerpt"]) (fun _ _ _ => some ["graph fact"])
          "who works with Alice" QueryMode.hybrid 10 =
        HybridResult.mk ["doc excerpt"] [] ResultOrigin.vectorOnly 0 :=
  ⟨rfl,
    hybridQuery_unavailable_vector_only (GraphAvailability.mk false 1)
      (fun _ _ _ => ["doc excerpt"]) (fun _ _ _ => some ["graph fact"])
      "who works with Alice" QueryMode.hybrid 10 rfl⟩

/-- C9: `truncateUrl` at the default `maxLength = 50` returns the URL
unchanged when it has at most 50 characters, otherwise returns exactly
its first 50 characters followed by `"..."`; in every case the result
has at most 53 characters. -/
theorem truncateUrl_default_spec (url : String) :
    (url.length ≤ 50 → truncateUrlDefault url = url) ∧
      (50 < url.length →
        truncateUrlDefault url = String.mk (url.toList.take 50) ++ "...") ∧
      (truncateUrlDefault url).length ≤ 53 := by
  have hlen : url.toList.length = url.length := rfl
  unfold truncateUrlDefault truncateUrl
  split_ifs with h
  · exact ⟨fun _ => rfl, fun h2 => absurd h (by omega), by omega⟩
  · refine ⟨fun h2 => absurd h2 h, fun _ => rfl, ?_⟩
    rw [String.length_append]
    have hmk : (String.mk (url.toList.take 50)).length =
        (url.toList.take 50).length := rfl
    have hdots : ("..." : String).length = 3 := rfl
    rw [hmk, hdots, List.length_take]
    omega

/-- C9 (witness): the default truncation evaluated at a concrete
60-character URL: the long branch applies and the result is the
53-character prefix-plus-ellipsis. -/
theorem truncateUrl_default_spec_witness :
    50 < sampleLongUrl.length ∧
      truncateUrlDefault sampleLongUrl =
        String.mk (sampleLongUrl.toList.take 50) ++ "..." ∧
      (truncateUrlDefault sampleLongUrl).length ≤ 53 :=
  ⟨by decide, (truncateUrl_default_spec sampleLongUrl).2.1 (by decide),
    (truncateUrl_default_spec sampleLongUrl).2.2⟩

/-- C10: prepending resource markers is the identity on the content
whenever the resource list is missing (null/undefined) or empty,
because `createResourceMarkers` of a missing or empty list is the empty
string — for every serialisation function and every content string. -/
theorem prependResourceMarkers_empty_identity
    (stringify : UIResource → String) (content : String) :
    createResourceMarkers stringify none = "" ∧
      createResourceMarkers stringify (some []) = "" ∧
      prependResourceMarkers stringify content none = content ∧
      prependResourceMarkers stringify content (some []) = content :=
  ⟨rfl, rfl, rfl, rfl⟩

end PeppeGPT
